import Mathlib

/-
  Verification development for the Arduino-MPPT solar charge controller.

  The repository holds two variants of the sketch:
  - the float-based sketch (Arduino-MPPT.ino), whose voltages are C floats
    measured in volts; it is embedded here over the exact rationals, with the
    C float-to-int conversion of a non-negative quantity rendered as Int.floor;
  - the integer sketch (deci-volt units), whose voltages are C longs; it is
    embedded over the integers, with C signed division (truncation toward
    zero) rendered as Int.tdiv.

  Definitions ending in _i belong to the integer variant; the bare names
  belong to the float variant.  Hardware effects (pwmWrite, digitalWrite on
  the driver / shutdown pins) are recorded as an explicit trace of actions in
  program order; LED-blink and serial-telemetry writes are peripheral and are
  not part of the converter-control trace.  The CVM embedding models an
  invocation on which the 15-second recalibration timer has not elapsed; the
  Voc recalibration itself (update_Vcvm) is modelled separately as a function
  of the raw ADC samples it reads.
-/

/-- The charger state enumeration of both sketches
    (enum charger_mode \x7bno_battery, sleep, bulk, Float, error\x7d). -/
inductive charger_mode where
  | no_battery
  | sleep
  | bulk
  | Float
  | error
deriving DecidableEq, Repr

/-- A hardware action on the converter-control pins, recorded in program
    order: a PWM duty write or a digital level write. -/
inductive HW where
  | pwmWrite (pin : ℤ) (value : ℤ)
  | digitalWrite (pin : ℤ) (level : Bool)
deriving DecidableEq, Repr

/-- PWM output pin to the MOSFET driver (both variants: pin 3). -/
def driver : ℤ := 3

/-- Shutdown pin of the MOSFET driver in the float variant (pin 4). -/
def shutDown : ℤ := 4

/-- Shutdown pin of the MOSFET driver in the integer variant (pin 5). -/
def shutDown_i : ℤ := 5

/-- Maximum battery voltage before an error, float variant (volts). -/
def Vmax : ℚ := 15

/-- Float-charge set-point, float variant (volts): const float Vfloat = 13.6. -/
def Vfloat : ℚ := 136 / 10

/-- Maximum battery voltage before an error, integer variant (deci-volts). -/
def Vmax_i : ℤ := 150

/-- Float-charge set-point, integer variant (deci-volts). -/
def Vfloat_i : ℤ := 136

/-- Lower clamp of the duty cycle in the float variant's run_charger. -/
def minDuty : ℤ := 100

/-- Upper clamp of the duty cycle in the float variant's run_charger. -/
def maxDuty : ℤ := 245

/-- Lower clamp of the duty cycle in the integer variant's run_charger. -/
def minDuty_i : ℤ := 75

/-- Upper clamp of the duty cycle in the integer variant's run_charger. -/
def maxDuty_i : ℤ := 245

/-- Panel-channel scale factor of the float variant:
    ADC value * 0.038136466707895 = input voltage. -/
def panelScale : ℚ := 38136466707895 / 1000000000000000

/-- Battery-channel scale factor of the float variant:
    ADC value * 0.019550342130987 = battery voltage. -/
def batteryScale : ℚ := 19550342130987 / 1000000000000000

/-- Arduino constrain(amt, low, high). -/
def constrain (x lo hi : ℤ) : ℤ :=
  if x < lo then lo else if x > hi then hi else x

/-- Arduino map(x, in_min, in_max, out_min, out_max); used here only with
    non-negative arguments, where C long division agrees with Int.tdiv. -/
def map' (x inMin inMax outMin outMax : ℤ) : ℤ :=
  Int.tdiv ((x - inMin) * (outMax - outMin)) (inMax - inMin) + outMin

/-- Per-tick mutable state of the float variant that the embedded functions
    read and write: the calibrated voltages, the CVM target, the duty cycle
    and its derived percentage, and the two status strings. -/
structure StF where
  panelVolts : ℚ
  batteryVolts : ℚ
  Vcvm : ℚ
  stepAmount : ℤ
  pulseWidth : ℤ
  pwm : ℤ
  SOC : String
  enable : String

/-- Per-tick mutable state of the integer (deci-volt) variant. -/
structure StI where
  panelVolts : ℤ
  batteryVolts : ℤ
  Vcvm : ℤ
  stepAmount : ℤ
  pulseWidth : ℤ
  pwm : ℤ
  SOC : String
  enable : String

/-- mode_select of the float variant.  The source assigns charger_state only
    in branches whose guard fires; the previous state s is retained when the
    third branch's guard holds but battery voltage falls in the hysteresis
    gap between Vfloat - 0.1 and Vfloat. -/
def mode_select (s : charger_mode) (panelVolts batteryVolts : ℚ) : charger_mode :=
  if batteryVolts < 10 then charger_mode.no_battery
  else if batteryVolts > Vmax then charger_mode.error
  else if batteryVolts > 10 ∧ batteryVolts < Vmax ∧ panelVolts > batteryVolts + 1 then
    (if batteryVolts ≤ Vfloat - 1 / 10 then charger_mode.bulk
     else if batteryVolts ≥ Vfloat then charger_mode.Float
     else s)
  else charger_mode.sleep

/-- mode_select of the integer variant.  There is no final else: the previous
    state s is retained when no branch fires (batteryVolts = 100,
    batteryVolts = 150, or panelVolts = 150 edge cases). -/
def mode_select_i (s : charger_mode) (panelVolts batteryVolts : ℤ) : charger_mode :=
  if batteryVolts < 100 then charger_mode.no_battery
  else if batteryVolts > Vmax_i then charger_mode.error
  else if batteryVolts > 100 ∧ batteryVolts < Vmax_i ∧ panelVolts > Vmax_i then
    (if batteryVolts ≥ Vfloat_i - 1 then charger_mode.Float else charger_mode.bulk)
  else if panelVolts < Vmax_i then charger_mode.sleep
  else s

/-- Inputs on which the float variant's mode_select retains the previous
    state: the first two branches fail, the sunlight branch fires, and the
    battery voltage lies in the hysteresis gap. -/
def retains (panelVolts batteryVolts : ℚ) : Prop :=
  ¬ batteryVolts < 10 ∧ ¬ batteryVolts > Vmax ∧
  (batteryVolts > 10 ∧ batteryVolts < Vmax ∧ panelVolts > batteryVolts + 1) ∧
  ¬ batteryVolts ≤ Vfloat - 1 / 10 ∧ ¬ batteryVolts ≥ Vfloat

instance (pv bv : ℚ) : Decidable (retains pv bv) := by
  unfold retains; infer_instance

/-- Inputs on which the integer variant's mode_select retains the previous
    state: no branch of the if-chain fires. -/
def retains_i (panelVolts batteryVolts : ℤ) : Prop :=
  ¬ batteryVolts < 100 ∧ ¬ batteryVolts > Vmax_i ∧
  ¬ (batteryVolts > 100 ∧ batteryVolts < Vmax_i ∧ panelVolts > Vmax_i) ∧
  ¬ panelVolts < Vmax_i

instance (pv bv : ℤ) : Decidable (retains_i pv bv) := by
  unfold retains_i; infer_instance

/-- The stepAmount computation of the float variant's CVM:
    stepAmount = abs(Vcvm - panelVolts) truncated to int (the operand is
    non-negative, so C truncation is Int.floor), then floored at 1. -/
def cvm_stepAmount (Vcvm panelVolts : ℚ) : ℤ :=
  let s : ℤ := Int.floor |Vcvm - panelVolts|
  if s < 1 then 1 else s

/-- The stepAmount computation of the integer variant's CVM:
    stepAmount = (Vcvm - panelVolts)/10 with C signed division (note: the
    signed difference, not its absolute value), then floored at 1. -/
def cvm_stepAmount_i (Vcvm panelVolts : ℤ) : ℤ :=
  let s : ℤ := Int.tdiv (Vcvm - panelVolts) 10
  if s < 1 then 1 else s

/-- The duty-cycle branch of the float variant's CVM: add or subtract
    stepAmount depending on the sign of panelVolts - Vcvm.  The addition is
    guarded only by pulseWidth < 245 (resp. > 100) before the step, so the
    result may leave [100, 245]. -/
def cvm_duty (Vcvm panelVolts : ℚ) (pulseWidth stepAmount : ℤ) : ℤ :=
  if panelVolts > Vcvm then
    (if pulseWidth < maxDuty then pulseWidth + stepAmount else maxDuty)
  else if panelVolts < Vcvm then
    (if pulseWidth > minDuty then pulseWidth - stepAmount else minDuty)
  else pulseWidth

/-- The duty-cycle branch of the integer variant's CVM (bounds 75 and 245). -/
def cvm_duty_i (Vcvm panelVolts pulseWidth stepAmount : ℤ) : ℤ :=
  if panelVolts > Vcvm then
    (if pulseWidth < maxDuty_i then pulseWidth + stepAmount else maxDuty_i)
  else if panelVolts < Vcvm then
    (if pulseWidth > minDuty_i then pulseWidth - stepAmount else minDuty_i)
  else pulseWidth

/-- CVM of the float variant on a tick whose recalibration timer has not
    elapsed: the start-up guard clamps Vcvm up to batteryVolts + 1, then the
    stepAmount and the duty branch run with the guarded target. -/
def CVM (st : StF) : StF :=
  let V := if st.Vcvm < st.batteryVolts then st.batteryVolts + 1 else st.Vcvm
  let s := cvm_stepAmount V st.panelVolts
  { st with Vcvm := V, stepAmount := s,
            pulseWidth := cvm_duty V st.panelVolts st.pulseWidth s }

/-- CVM of the integer variant on a tick whose recalibration timer has not
    elapsed.  The start-up guard of the float variant is commented out in
    this source, so Vcvm is used as stored, even below batteryVolts. -/
def CVM_i (st : StI) : StI :=
  let s := cvm_stepAmount_i st.Vcvm st.panelVolts
  { st with stepAmount := s,
            pulseWidth := cvm_duty_i st.Vcvm st.panelVolts st.pulseWidth s }

/-- run_charger of the float variant: constrain the duty cycle to
    [100, 245], derive the percentage, write the duty to the PWM pin, then
    raise the shutdown pin to enable the driver. -/
def run_charger (st : StF) : StF × List HW :=
  let pw := constrain st.pulseWidth minDuty maxDuty
  ({ st with pulseWidth := pw, pwm := map' pw 0 255 0 100, enable := "On" },
   [HW.pwmWrite driver pw, HW.digitalWrite shutDown true])

/-- disable_charger of the float variant: lower the shutdown pin; the duty
    cycle variable is untouched. -/
def disable_charger (st : StF) : StF × List HW :=
  ({ st with enable := "Off" }, [HW.digitalWrite shutDown false])

/-- run_charger of the integer variant (bounds 75 and 245, shutdown pin 5). -/
def run_charger_i (st : StI) : StI × List HW :=
  let pw := constrain st.pulseWidth minDuty_i maxDuty_i
  ({ st with pulseWidth := pw, pwm := map' pw 0 255 0 100, enable := "On" },
   [HW.pwmWrite driver pw, HW.digitalWrite shutDown_i true])

/-- disable_charger of the integer variant. -/
def disable_charger_i (st : StI) : StI × List HW :=
  ({ st with enable := "Off" }, [HW.digitalWrite shutDown_i false])

/-- set_charger of the float variant: dispatch on the active charger state
    and perform its entry action.  The bulk case runs CVM then run_charger;
    the Float case forces the duty cycle to 245 and enables only while the
    battery is below Vfloat.  In the typed embedding the enum is exhaustive,
    so the source's default branch (disable plus fault indicator) has no
    reachable counterpart. -/
def set_charger (s : charger_mode) (st : StF) : StF × List HW :=
  match s with
  | charger_mode.no_battery =>
      let (st', t) := disable_charger st
      ({ st' with SOC := "No Battery!" }, t)
  | charger_mode.sleep =>
      let (st', t) := disable_charger st
      ({ st' with SOC := "Sleep" }, t)
  | charger_mode.bulk =>
      run_charger (CVM { st with SOC := "Bulk" })
  | charger_mode.Float =>
      let st1 := { st with SOC := "Float", pulseWidth := 245 }
      if st1.batteryVolts < Vfloat then run_charger st1 else disable_charger st1
  | charger_mode.error =>
      let (st', t) := disable_charger st
      ({ st' with SOC := "Error" }, t)

/-- set_charger of the integer variant; its sleep case additionally resets
    pulseWidth to 100 after disabling the driver. -/
def set_charger_i (s : charger_mode) (st : StI) : StI × List HW :=
  match s with
  | charger_mode.no_battery =>
      let (st', t) := disable_charger_i st
      ({ st' with SOC := "No Battery!" }, t)
  | charger_mode.sleep =>
      let (st', t) := disable_charger_i st
      ({ st' with SOC := "Sleep", pulseWidth := 100 }, t)
  | charger_mode.bulk =>
      run_charger_i (CVM_i { st with SOC := "Bulk" })
  | charger_mode.Float =>
      let st1 := { st with SOC := "Float", pulseWidth := 245 }
      if st1.batteryVolts < Vfloat_i then run_charger_i st1 else disable_charger_i st1
  | charger_mode.error =>
      let (st', t) := disable_charger_i st
      ({ st' with SOC := "Error" }, t)

/-- read_data of the float variant.  The sampling loops accumulate into the
    calibrated-voltage variables without zeroing them first, so the previous
    calibrated values enter the sums; then each sum is divided by 100 and
    scaled.  The raw samples of one invocation are passed as lists. -/
def read_data (panelPrev batteryPrev : ℚ) (panelSamples batterySamples : List ℚ) :
    ℚ × ℚ :=
  let p := (panelSamples.foldl (· + ·) panelPrev) / 100
  let bt := (batterySamples.foldl (· + ·) batteryPrev) / 100
  (p * panelScale, bt * batteryScale)

/-- update_Vcvm of the float variant: like read_data it accumulates into Voc
    without zeroing it; returns the new (Voc, Vcvm) with Vcvm = Voc * 0.76. -/
def update_Vcvm (VocPrev : ℚ) (panelSamples : List ℚ) : ℚ × ℚ :=
  let v := ((panelSamples.foldl (· + ·) VocPrev) / 100) * panelScale
  (v, v * (76 / 100))

/-- read_data of the integer variant: both accumulators are zeroed before
    the 100-sample loops, then averaged and scaled with C long division. -/
def read_data_i (panelSamples batterySamples : List ℤ) : ℤ × ℤ :=
  let p := Int.tdiv (panelSamples.foldl (· + ·) 0) 100
  let bt := Int.tdiv (batterySamples.foldl (· + ·) 0) 100
  (Int.tdiv (p * 488) 1197, Int.tdiv (bt * 488) 2441)

/-- update_Vcvm of the integer variant: Voc is zeroed before the loop;
    returns the new (Voc, Vcvm) with Vcvm = (Voc*76)/100. -/
def update_Vcvm_i (panelSamples : List ℤ) : ℤ × ℤ :=
  let v := Int.tdiv (Int.tdiv (panelSamples.foldl (· + ·) 0) 100 * 488) 1197
  (v, Int.tdiv (v * 76) 100)

/-- Folding addition over n copies of c starting from a gives a + n * c. -/
lemma foldl_add_replicate_rat (n : ℕ) (a c : ℚ) :
    (List.replicate n c).foldl (· + ·) a = a + n * c := by
  induction n generalizing a with
  | zero => simp
  | succ k ih => simp [List.replicate, ih]; ring

/-- Arduino constrain lands in the requested interval. -/
lemma constrain_mem (x lo hi : ℤ) (h : lo ≤ hi) :
    lo ≤ constrain x lo hi ∧ constrain x lo hi ≤ hi := by
  unfold constrain; split_ifs <;> omega

/-- The float variant's step amount is at least 1. -/
lemma one_le_cvm_stepAmount (V pv : ℚ) : 1 ≤ cvm_stepAmount V pv := by
  simp only [cvm_stepAmount]; split_ifs <;> omega

/-- The integer variant's step amount is at least 1. -/
lemma one_le_cvm_stepAmount_i (a b : ℤ) : 1 ≤ cvm_stepAmount_i a b := by
  simp only [cvm_stepAmount_i]; split_ifs <;> omega

/-- Claim C1: after every invocation of run_charger, in either variant, the
    emitted duty cycle lies in [minDuty, maxDuty] ([100, 245] float variant,
    [75, 245] integer variant), and the clamped value is exactly what the
    single pwmWrite at the emission point sends to the hardware. -/
theorem C1_output_guard_bounds (st : StF) (sti : StI) :
    (minDuty ≤ (run_charger st).1.pulseWidth ∧ (run_charger st).1.pulseWidth ≤ maxDuty ∧
     (run_charger st).2 = [HW.pwmWrite driver ((run_charger st).1.pulseWidth),
                           HW.digitalWrite shutDown true]) ∧
    (minDuty_i ≤ (run_charger_i sti).1.pulseWidth ∧
     (run_charger_i sti).1.pulseWidth ≤ maxDuty_i ∧
     (run_charger_i sti).2 = [HW.pwmWrite driver ((run_charger_i sti).1.pulseWidth),
                              HW.digitalWrite shutDown_i true]) := by
  have h1 := constrain_mem st.pulseWidth minDuty maxDuty (by decide)
  have h2 := constrain_mem sti.pulseWidth minDuty_i maxDuty_i (by decide)
  exact ⟨⟨h1.1, h1.2, rfl⟩, ⟨h2.1, h2.2, rfl⟩⟩

/-- Claim C2: on enabling, run_charger's hardware trace writes the duty
    cycle to the PWM pin strictly before asserting the driver-enable
    (shutdown) pin; on disabling, disable_charger's trace deasserts the
    enable pin first (it is the only converter-control action) and leaves
    the duty-cycle variable unchanged.  Both variants. -/
theorem C2_enable_disable_sequencing (st : StF) (sti : StI) :
    ((run_charger st).2 = [HW.pwmWrite driver ((run_charger st).1.pulseWidth),
                           HW.digitalWrite shutDown true] ∧
     (disable_charger st).2 = [HW.digitalWrite shutDown false] ∧
     (disable_charger st).1.pulseWidth = st.pulseWidth) ∧
    ((run_charger_i sti).2 = [HW.pwmWrite driver ((run_charger_i sti).1.pulseWidth),
                              HW.digitalWrite shutDown_i true] ∧
     (disable_charger_i sti).2 = [HW.digitalWrite shutDown_i false] ∧
     (disable_charger_i sti).1.pulseWidth = sti.pulseWidth) :=
  ⟨⟨rfl, rfl, rfl⟩, ⟨rfl, rfl, rfl⟩⟩

/-- Claim C3, failing input: mode_select reclassifies purely from the
    measured voltages, so the error state self-clears.  From charger state
    error, a tick measuring batteryVolts = 12.0 V with a dark panel
    (9.0 V; 120 and 90 deci-volts in the integer variant) moves the state
    to sleep, although the source comments that the error state needs a
    reset to escape from. -/
theorem C3_error_state_self_clears :
    mode_select charger_mode.error 9 12 = charger_mode.sleep ∧
    mode_select_i charger_mode.error 90 120 = charger_mode.sleep := by
  constructor
  · norm_num [mode_select, Vmax, Vfloat]
  · decide

/-- Claim C9: in both variants, the entry actions of the no_battery, sleep
    and error states emit exactly one converter-control hardware action:
    deasserting the driver-enable (shutdown) pin.  No enable is emitted
    within the tick's state handling. -/
theorem C9_fault_states_disable_output (st : StF) (sti : StI) :
    (set_charger charger_mode.no_battery st).2 = [HW.digitalWrite shutDown false] ∧
    (set_charger charger_mode.sleep st).2 = [HW.digitalWrite shutDown false] ∧
    (set_charger charger_mode.error st).2 = [HW.digitalWrite shutDown false] ∧
    (set_charger_i charger_mode.no_battery sti).2 = [HW.digitalWrite shutDown_i false] ∧
    (set_charger_i charger_mode.sleep sti).2 = [HW.digitalWrite shutDown_i false] ∧
    (set_charger_i charger_mode.error sti).2 = [HW.digitalWrite shutDown_i false] :=
  ⟨rfl, rfl, rfl, rfl, rfl, rfl⟩

/-- Claim C10, counterexample to the parenthetical: the integer variant's
    sleep tick does set pulseWidth to 100, but 100 is not that variant's
    minimum duty: run_charger and CVM clamp at minDuty_i = 75 there. -/
theorem C10_sleep_duty_is_not_minDuty :
    (set_charger_i charger_mode.sleep ⟨0, 120, 0, 1, 200, 0, "x", "x"⟩).1.pulseWidth = 100 ∧
    minDuty_i = 75 ∧
    (set_charger_i charger_mode.sleep
      ⟨0, 120, 0, 1, 200, 0, "x", "x"⟩).1.pulseWidth ≠ minDuty_i := by
  refine ⟨rfl, rfl, ?_⟩
  decide

/-- Claim C10 as amended: after any tick of the integer variant executed in
    the sleep state, pulseWidth equals the fixed restart value 100 (which
    sits above that variant's lower clamp minDuty_i = 75), so bulk charging
    after a sleep period restarts from 100 rather than from the last bulk
    duty value; the float variant's sleep action leaves pulseWidth
    unchanged. -/
theorem C10_sleep_resets_duty (sti : StI) (st : StF) :
    (set_charger_i charger_mode.sleep sti).1.pulseWidth = 100 ∧
    (set_charger charger_mode.sleep st).1.pulseWidth = st.pulseWidth :=
  ⟨rfl, rfl⟩

/-- Projection equations of the float variant's CVM embedding. -/
lemma CVM_spec (st : StF) :
    (CVM st).Vcvm = (if st.Vcvm < st.batteryVolts then st.batteryVolts + 1 else st.Vcvm) ∧
    (CVM st).stepAmount = cvm_stepAmount (CVM st).Vcvm st.panelVolts ∧
    (CVM st).pulseWidth
      = cvm_duty (CVM st).Vcvm st.panelVolts st.pulseWidth ((CVM st).stepAmount) :=
  ⟨rfl, rfl, rfl⟩

/-- Projection equations of the integer variant's CVM embedding. -/
lemma CVM_i_spec (sti : StI) :
    (CVM_i sti).Vcvm = sti.Vcvm ∧
    (CVM_i sti).stepAmount = cvm_stepAmount_i sti.Vcvm sti.panelVolts ∧
    (CVM_i sti).pulseWidth
      = cvm_duty_i sti.Vcvm sti.panelVolts sti.pulseWidth ((CVM_i sti).stepAmount) :=
  ⟨rfl, rfl, rfl⟩

/-- One CVM duty step of the float variant can leave [minDuty, maxDuty] by
    at most stepAmount - 1 on either side. -/
lemma cvm_duty_bounds (V pv : ℚ) (pw s : ℤ) (hs : 1 ≤ s)
    (h1 : minDuty ≤ pw) (h2 : pw ≤ maxDuty) :
    minDuty - (s - 1) ≤ cvm_duty V pv pw s ∧ cvm_duty V pv pw s ≤ maxDuty + (s - 1) := by
  unfold cvm_duty minDuty maxDuty at *
  split_ifs <;> constructor <;> omega

/-- One CVM duty step of the integer variant can leave [minDuty_i, maxDuty_i]
    by at most stepAmount - 1 on either side. -/
lemma cvm_duty_bounds_i (V pv pw s : ℤ) (hs : 1 ≤ s)
    (h1 : minDuty_i ≤ pw) (h2 : pw ≤ maxDuty_i) :
    minDuty_i - (s - 1) ≤ cvm_duty_i V pv pw s ∧ cvm_duty_i V pv pw s ≤ maxDuty_i + (s - 1) := by
  unfold cvm_duty_i minDuty_i maxDuty_i at *
  split_ifs <;> constructor <;> omega

/-- When the panel voltage equals the target, the float variant's duty
    branch leaves the duty cycle unchanged. -/
lemma cvm_duty_eq_of_eq (V : ℚ) (pw s : ℤ) : cvm_duty V V pw s = pw := by
  simp [cvm_duty]

/-- When the panel voltage equals the target, the integer variant's duty
    branch leaves the duty cycle unchanged. -/
lemma cvm_duty_i_eq_of_eq (V : ℤ) (pw s : ℤ) : cvm_duty_i V V pw s = pw := by
  simp [cvm_duty_i]

/-- Claim C4, counterexample: mode_select is not a function of the two
    voltages alone.  At panelVolts 18 V and batteryVolts 13.55 V (inside the
    hysteresis gap), the result is the previously stored charger state, so
    two different prior states give two different results. -/
theorem C4_hidden_state_dependence :
    mode_select charger_mode.sleep 18 (271 / 20)
      ≠ mode_select charger_mode.bulk 18 (271 / 20) := by
  have ha : mode_select charger_mode.sleep 18 (271 / 20) = charger_mode.sleep := by
    norm_num [mode_select, Vmax, Vfloat]
  have hb : mode_select charger_mode.bulk 18 (271 / 20) = charger_mode.bulk := by
    norm_num [mode_select, Vmax, Vfloat]
  rw [ha, hb]
  decide

/-- Claim C4 as amended: mode_select always terminates with one of the five
    states, but it is a function of the previous state as well as the two
    voltages.  Outside the retention inputs (the float variant's hysteresis
    gap Vfloat - 0.1 < batteryVolts < Vfloat under the sunlight guard; the
    integer variant's unmatched edge inputs), the result is independent of
    the previous state. -/
theorem C4_classifier_pure_outside_gap (s t si ti : charger_mode)
    (pv bv : ℚ) (pvi bvi : ℤ)
    (hf : ¬ retains pv bv) (hi : ¬ retains_i pvi bvi) :
    mode_select s pv bv = mode_select t pv bv ∧
    mode_select_i si pvi bvi = mode_select_i ti pvi bvi := by
  unfold retains at hf
  unfold retains_i at hi
  unfold mode_select mode_select_i
  constructor <;> split_ifs <;> first | rfl | tauto

/-- Claim C4 amended, witness at a concrete non-gap input. -/
theorem C4_classifier_pure_outside_gap_witness :
    mode_select charger_mode.sleep 9 12 = mode_select charger_mode.bulk 9 12 ∧
    mode_select_i charger_mode.sleep 90 120 = mode_select_i charger_mode.bulk 90 120 :=
  C4_classifier_pure_outside_gap charger_mode.sleep charger_mode.bulk
    charger_mode.sleep charger_mode.bulk 9 12 90 120
    (by norm_num [retains, Vmax, Vfloat]) (by decide)

/-- Claim C5, counterexample: one CVM invocation of the float variant takes
    pulseWidth from 244 (inside [minDuty, maxDuty]) to 254, beyond maxDuty:
    the increase branch only tests pulseWidth < 245 before adding the step
    (here stepAmount 10 from Vcvm 10, panelVolts 20), it does not clamp the
    sum. -/
theorem C5_cvm_overshoots_maxDuty :
    minDuty ≤ (⟨20, 0, 10, 1, 244, 0, "c", "c"⟩ : StF).pulseWidth ∧
    (⟨20, 0, 10, 1, 244, 0, "c", "c"⟩ : StF).pulseWidth ≤ maxDuty ∧
    (CVM ⟨20, 0, 10, 1, 244, 0, "c", "c"⟩).pulseWidth = 254 ∧
    maxDuty < (CVM ⟨20, 0, 10, 1, 244, 0, "c", "c"⟩).pulseWidth := by
  have hval : (CVM (⟨20, 0, 10, 1, 244, 0, "c", "c"⟩ : StF)).pulseWidth = 254 := by
    norm_num [CVM, cvm_stepAmount, cvm_duty, minDuty, maxDuty]
  exact ⟨by decide, by decide, hval, by rw [hval]; decide⟩

/-- Claim C5 as amended: each CVM invocation updates the duty cycle by one
    of three cases (increase by stepAmount when panelVolts is above the
    target, decrease when below, unchanged when equal), but the step is not
    clamped at the bound: starting inside [minDuty, maxDuty], the result can
    leave the interval by up to stepAmount - 1 on either side (the range
    invariant is restored only by run_charger's constrain).  Both variants;
    the equality case leaves pulseWidth unchanged. -/
theorem C5_cvm_step_bounds (st : StF) (sti : StI)
    (h1 : minDuty ≤ st.pulseWidth) (h2 : st.pulseWidth ≤ maxDuty)
    (h3 : minDuty_i ≤ sti.pulseWidth) (h4 : sti.pulseWidth ≤ maxDuty_i) :
    (minDuty - ((CVM st).stepAmount - 1) ≤ (CVM st).pulseWidth ∧
     (CVM st).pulseWidth ≤ maxDuty + ((CVM st).stepAmount - 1) ∧
     (st.panelVolts = (CVM st).Vcvm → (CVM st).pulseWidth = st.pulseWidth)) ∧
    (minDuty_i - ((CVM_i sti).stepAmount - 1) ≤ (CVM_i sti).pulseWidth ∧
     (CVM_i sti).pulseWidth ≤ maxDuty_i + ((CVM_i sti).stepAmount - 1) ∧
     (sti.panelVolts = sti.Vcvm → (CVM_i sti).pulseWidth = sti.pulseWidth)) := by
  constructor
  · obtain ⟨hV, hs, hpw⟩ := CVM_spec st
    rw [hpw, hs]
    refine ⟨(cvm_duty_bounds _ _ _ _ (one_le_cvm_stepAmount _ _) h1 h2).1,
            (cvm_duty_bounds _ _ _ _ (one_le_cvm_stepAmount _ _) h1 h2).2, ?_⟩
    intro he
    rw [← he]
    exact cvm_duty_eq_of_eq _ _ _
  · obtain ⟨hV, hs, hpw⟩ := CVM_i_spec sti
    rw [hpw, hs]
    refine ⟨(cvm_duty_bounds_i _ _ _ _ (one_le_cvm_stepAmount_i _ _) h3 h4).1,
            (cvm_duty_bounds_i _ _ _ _ (one_le_cvm_stepAmount_i _ _) h3 h4).2, ?_⟩
    intro he
    rw [← he]
    exact cvm_duty_i_eq_of_eq _ _ _

/-- Claim C5 amended, witness at a concrete in-range state. -/
theorem C5_cvm_step_bounds_witness :
    minDuty - ((CVM ⟨18, 12, 17, 1, 200, 0, "w", "w"⟩).stepAmount - 1) ≤
      (CVM ⟨18, 12, 17, 1, 200, 0, "w", "w"⟩).pulseWidth :=
  ((C5_cvm_step_bounds ⟨18, 12, 17, 1, 200, 0, "w", "w"⟩
      ⟨180, 120, 170, 1, 200, 0, "w", "w"⟩
      (by decide) (by decide) (by decide) (by decide)).1).1

/-- Claim C6, counterexample: the integer variant divides the signed
    difference (Vcvm - panelVolts)/10 without taking the absolute value, so
    at Vcvm 100 and panelVolts 200 the computed step is the floor value 1,
    not the scaled absolute distance 10 the claim's formula gives. -/
theorem C6_integer_step_ignores_sign :
    cvm_stepAmount_i 100 200 = 1 ∧
    max 1 (Int.tdiv |(100 : ℤ) - 200| 10) = 10 ∧
    cvm_stepAmount_i 100 200 ≠ max 1 (Int.tdiv |(100 : ℤ) - 200| 10) := by
  decide

/-- Claim C6 as amended: the float variant's step equals
    max(1, floor |Vcvm - panelVolts|); the integer variant's step equals
    max(1, (Vcvm - panelVolts)/10) with the signed difference (so whenever
    panelVolts is at or above Vcvm the step is 1, not proportional).  In
    both variants the computed step is always at least 1. -/
theorem C6_step_amount_formula (V pv : ℚ) (a b : ℤ) :
    cvm_stepAmount V pv = max 1 (Int.floor |V - pv|) ∧
    1 ≤ cvm_stepAmount V pv ∧
    cvm_stepAmount_i a b = max 1 (Int.tdiv (a - b) 10) ∧
    1 ≤ cvm_stepAmount_i a b := by
  refine ⟨?_, one_le_cvm_stepAmount V pv, ?_, one_le_cvm_stepAmount_i a b⟩
  · simp only [cvm_stepAmount]; split_ifs <;> omega
  · simp only [cvm_stepAmount_i]; split_ifs <;> omega

/-- Claim C7, failing input: the float variant's sampling loops accumulate
    into the output variable without zeroing it.  With panelVolts previously
    18 and one hundred raw samples of 500, read_data yields
    (18 + 100*500)/100 * scale = 500.18 * scale, not the fresh-sample mean
    500 * scale; update_Vcvm has the same stale-accumulator behavior. -/
theorem C7_acquisition_uses_stale_accumulator :
    (read_data 18 12 (List.replicate 100 500) (List.replicate 100 500)).1
      = (50018 / 100) * panelScale ∧
    ((List.replicate 100 (500 : ℚ)).foldl (· + ·) 0 / 100) * panelScale
      = 500 * panelScale ∧
    (50018 / 100 : ℚ) * panelScale ≠ 500 * panelScale ∧
    (update_Vcvm 19 (List.replicate 100 500)).1 = (50019 / 100) * panelScale := by
  have hf := foldl_add_replicate_rat 100 (18 : ℚ) 500
  have h0 := foldl_add_replicate_rat 100 (0 : ℚ) 500
  have h19 := foldl_add_replicate_rat 100 (19 : ℚ) 500
  refine ⟨?_, ?_, ?_, ?_⟩
  · simp only [read_data]; rw [hf]; norm_num
  · rw [h0]; norm_num
  · norm_num [panelScale]
  · simp only [update_Vcvm]; rw [h19]; norm_num

/-- Claim C8, counterexample: the integer variant's CVM has the start-up
    guard commented out.  With stored Vcvm 50 below batteryVolts 120 and
    panelVolts 100, the invocation leaves Vcvm at 50 and computes an
    increase step (pulseWidth 100 to 101); had the target been clamped to
    batteryVolts + 10 = 130 the same invocation would decrease to 97. -/
theorem C8_integer_variant_lacks_guard :
    (CVM_i ⟨100, 120, 50, 1, 100, 0, "g", "g"⟩).Vcvm = 50 ∧
    (CVM_i ⟨100, 120, 50, 1, 100, 0, "g", "g"⟩).Vcvm <
      (⟨100, 120, 50, 1, 100, 0, "g", "g"⟩ : StI).batteryVolts ∧
    (CVM_i ⟨100, 120, 50, 1, 100, 0, "g", "g"⟩).pulseWidth = 101 ∧
    (CVM_i ⟨100, 120, 130, 1, 100, 0, "g", "g"⟩).pulseWidth = 97 := by
  decide

/-- Claim C8 as amended: the guard is present in the float variant only:
    there, whenever the stored Vcvm is below the measured battery voltage,
    the invocation clamps the target to batteryVolts + 1 before the step
    computation, which therefore never runs with a target below the battery
    voltage. -/
theorem C8_float_variant_guard (st : StF) (h : st.Vcvm < st.batteryVolts) :
    (CVM st).Vcvm = st.batteryVolts + 1 ∧
    st.batteryVolts ≤ (CVM st).Vcvm ∧
    (CVM st).pulseWidth
      = cvm_duty (CVM st).Vcvm st.panelVolts st.pulseWidth
          (cvm_stepAmount (CVM st).Vcvm st.panelVolts) := by
  obtain ⟨hV, hs, hpw⟩ := CVM_spec st
  rw [if_pos h] at hV
  refine ⟨hV, ?_, ?_⟩
  · rw [hV]; linarith
  · rw [hpw, hs]

/-- Claim C8 amended, witness at a concrete state with Vcvm below the
    battery voltage. -/
theorem C8_float_variant_guard_witness :
    (CVM ⟨18, 12, 5, 1, 200, 0, "v", "v"⟩).Vcvm = (12 : ℚ) + 1 :=
  (C8_float_variant_guard ⟨18, 12, 5, 1, 200, 0, "v", "v"⟩ (by norm_num)).1
